import Mathlib

/-!
Verification of the DVB-S2 encoder control library: a shallow embedding of
the register-level data model (fixed-point codec, modulation table generator,
TID lookup table, AXI streaming FIFO send/receive traces, AXI debug block
snapshots, and the in-memory fake register backend), with theorems checking
the documented behaviour against the embedded code.
-/

namespace Dvb

/-! ### Fixed-point codec (dvb_encoder.toFixedPoint)

Python `round` rounds half to even; we model it on rationals. -/

/-- Round half to even, as Python's builtin `round` does on floats. -/
def pyRound (q : ℚ) : ℤ :=
  let f : ℤ := ⌊q⌋
  let frac : ℚ := q - f
  if frac < 1 / 2 then f
  else if 1 / 2 < frac then f + 1
  else if f % 2 = 0 then f else f + 1

/-- `toFixedPoint(value, width)` from `dvb_encoder.py`:
scale by `(1 << (width-1)) - 1`, round, and wrap negative results by
adding `1 << width` (two's complement, no saturation). -/
def toFixedPoint (value : ℚ) (width : ℕ) : ℤ :=
  let v : ℤ := pyRound (((2 : ℚ) ^ (width - 1) - 1) * value)
  if 0 ≤ v then v else v + 2 ^ width

/-! ### Enumerations (common.py) -/

/-- Constellation types as defined in `common.py`. -/
inductive ConstellationType where
  | MOD_QPSK
  | MOD_8PSK
  | MOD_16APSK
  | MOD_32APSK
  deriving DecidableEq, Fintype, Repr

/-- Frame types as defined in `common.py`. -/
inductive FrameType where
  | FECFRAME_NORMAL
  | FECFRAME_SHORT
  deriving DecidableEq, Fintype, Repr

/-- Code rates as defined in `common.py`. -/
inductive CodeRate where
  | C1_4
  | C1_3
  | C2_5
  | C1_2
  | C3_5
  | C2_3
  | C3_4
  | C4_5
  | C5_6
  | C8_9
  | C9_10
  deriving DecidableEq, Fintype, Repr

/-- The `TID_MAP` nested dictionary from `common.py`.  The dictionary lists
every (frame type, constellation, code rate) triple, so the lookup is total. -/
def tidMap (ft : FrameType) (c : ConstellationType) (cr : CodeRate) : ℕ :=
  match ft with
  | .FECFRAME_SHORT =>
    match c with
    | .MOD_QPSK =>
      match cr with
      | .C1_4 => 0x00 | .C1_3 => 0x01 | .C2_5 => 0x02 | .C1_2 => 0x03
      | .C3_5 => 0x04 | .C2_3 => 0x05 | .C3_4 => 0x06 | .C4_5 => 0x07
      | .C5_6 => 0x08 | .C8_9 => 0x09 | .C9_10 => 0x0A
    | .MOD_8PSK =>
      match cr with
      | .C1_4 => 0x0B | .C1_3 => 0x0C | .C2_5 => 0x0D | .C1_2 => 0x0E
      | .C3_5 => 0x0F | .C2_3 => 0x10 | .C3_4 => 0x11 | .C4_5 => 0x12
      | .C5_6 => 0x13 | .C8_9 => 0x14 | .C9_10 => 0x15
    | .MOD_16APSK =>
      match cr with
      | .C1_4 => 0x16 | .C1_3 => 0x17 | .C2_5 => 0x18 | .C1_2 => 0x19
      | .C3_5 => 0x1A | .C2_3 => 0x1B | .C3_4 => 0x1C | .C4_5 => 0x1D
      | .C5_6 => 0x1E | .C8_9 => 0x1F | .C9_10 => 0x20
    | .MOD_32APSK =>
      match cr with
      | .C1_4 => 0x21 | .C1_3 => 0x22 | .C2_5 => 0x23 | .C1_2 => 0x24
      | .C3_5 => 0x25 | .C2_3 => 0x26 | .C3_4 => 0x27 | .C4_5 => 0x28
      | .C5_6 => 0x29 | .C8_9 => 0x2A | .C9_10 => 0x2B
  | .FECFRAME_NORMAL =>
    match c with
    | .MOD_QPSK =>
      match cr with
      | .C1_4 => 0x2C | .C1_3 => 0x2D | .C2_5 => 0x2E | .C1_2 => 0x2F
      | .C3_5 => 0x30 | .C2_3 => 0x31 | .C3_4 => 0x32 | .C4_5 => 0x33
      | .C5_6 => 0x34 | .C8_9 => 0x35 | .C9_10 => 0x36
    | .MOD_8PSK =>
      match cr with
      | .C1_4 => 0x37 | .C1_3 => 0x38 | .C2_5 => 0x39 | .C1_2 => 0x3A
      | .C3_5 => 0x3B | .C2_3 => 0x3C | .C3_4 => 0x3D | .C4_5 => 0x3E
      | .C5_6 => 0x3F | .C8_9 => 0x40 | .C9_10 => 0x41
    | .MOD_16APSK =>
      match cr with
      | .C1_4 => 0x42 | .C1_3 => 0x43 | .C2_5 => 0x44 | .C1_2 => 0x45
      | .C3_5 => 0x46 | .C2_3 => 0x47 | .C3_4 => 0x48 | .C4_5 => 0x49
      | .C5_6 => 0x4A | .C8_9 => 0x4B | .C9_10 => 0x4C
    | .MOD_32APSK =>
      match cr with
      | .C1_4 => 0x4D | .C1_3 => 0x4E | .C2_5 => 0x4F | .C1_2 => 0x50
      | .C3_5 => 0x51 | .C2_3 => 0x52 | .C3_4 => 0x53 | .C4_5 => 0x54
      | .C5_6 => 0x55 | .C8_9 => 0x56 | .C9_10 => 0x57

/-! ### Modulation table generator (dvb_encoder._getModulationTable) -/

noncomputable section

open Real in
/-- The 16APSK inner ring radius `r1`: the per-frame-type, per-code-rate
dictionary lookups in `_getModulationTable`, with default 0.0 for code rates
absent from the dictionary.  `r2` is the outer radius (1.0 at both call
sites, kept as a parameter to mirror the source's `r2 / x` entries). -/
def apsk16R1 (r2 : ℝ) : FrameType → CodeRate → ℝ
  | .FECFRAME_NORMAL, cr =>
    match cr with
    | .C2_3 => r2 / 3.15
    | .C3_4 => r2 / 2.85
    | .C4_5 => r2 / 2.75
    | .C5_6 => r2 / 2.70
    | .C8_9 => r2 / 2.60
    | .C9_10 => r2 / 2.57
    | .C3_5 => r2 / 3.70
    | _ => 0
  | .FECFRAME_SHORT, cr =>
    match cr with
    | .C2_3 => r2 / 3.15
    | .C3_4 => r2 / 2.85
    | .C4_5 => r2 / 2.75
    | .C5_6 => r2 / 2.70
    | .C8_9 => r2 / 2.60
    | .C3_5 => r2 / 3.70
    | _ => 0

open Real in
/-- The 16 entries returned for `MOD_16APSK`, parameterised by the two ring
radii exactly as in the source tuple. -/
def apsk16Entries (r1 r2 : ℝ) : List (ℝ × ℝ) :=
  [(r2 * cos (π / 4), r2 * sin (π / 4)),
   (r2 * cos (-π / 4), r2 * sin (-π / 4)),
   (r2 * cos (3 * π / 4), r2 * sin (3 * π / 4)),
   (r2 * cos (-3 * π / 4), r2 * sin (-3 * π / 4)),
   (r2 * cos (π / 12), r2 * sin (π / 12)),
   (r2 * cos (-π / 12), r2 * sin (-π / 12)),
   (r2 * cos (11 * π / 12), r2 * sin (11 * π / 12)),
   (r2 * cos (-11 * π / 12), r2 * sin (-11 * π / 12)),
   (r2 * cos (5 * π / 12), r2 * sin (5 * π / 12)),
   (r2 * cos (-5 * π / 12), r2 * sin (-5 * π / 12)),
   (r2 * cos (7 * π / 12), r2 * sin (7 * π / 12)),
   (r2 * cos (-7 * π / 12), r2 * sin (-7 * π / 12)),
   (r1 * cos (π / 4), r1 * sin (π / 4)),
   (r1 * cos (-π / 4), r1 * sin (-π / 4)),
   (r1 * cos (3 * π / 4), r1 * sin (3 * π / 4)),
   (r1 * cos (-3 * π / 4), r1 * sin (-3 * π / 4))]

/-- The 32APSK inner radius `r1` lookup (default 0.0), with `r3 = 1.0`
kept as a parameter as in the source. -/
def apsk32R1 (r3 : ℝ) : CodeRate → ℝ
  | .C3_4 => r3 / 5.27
  | .C4_5 => r3 / 4.87
  | .C5_6 => r3 / 4.64
  | .C8_9 => r3 / 4.33
  | .C9_10 => r3 / 4.30
  | _ => 0

/-- The 32APSK middle radius `r2` lookup: scales the already-computed `r1`
(default 0.0). -/
def apsk32R2 (r1 : ℝ) : CodeRate → ℝ
  | .C3_4 => r1 * 2.84
  | .C4_5 => r1 * 2.72
  | .C5_6 => r1 * 2.64
  | .C8_9 => r1 * 2.54
  | .C9_10 => r1 * 2.53
  | _ => 0

open Real in
/-- The 32 entries returned for `MOD_32APSK`, in source order. -/
def apsk32Entries (r1 r2 r3 : ℝ) : List (ℝ × ℝ) :=
  [(r2 * cos (π / 4), r2 * sin (π / 4)),
   (r2 * cos (5 * π / 12), r2 * sin (5 * π / 12)),
   (r2 * cos (-π / 4), r2 * sin (-π / 4)),
   (r2 * cos (-5 * π / 12), r2 * sin (-5 * π / 12)),
   (r2 * cos (3 * π / 4), r2 * sin (3 * π / 4)),
   (r2 * cos (7 * π / 12), r2 * sin (7 * π / 12)),
   (r2 * cos (-3 * π / 4), r2 * sin (-3 * π / 4)),
   (r2 * cos (-7 * π / 12), r2 * sin (-7 * π / 12)),
   (r3 * cos (π / 8), r3 * sin (π / 8)),
   (r3 * cos (3 * π / 8), r3 * sin (3 * π / 8)),
   (r3 * cos (-π / 4), r3 * sin (-π / 4)),
   (r3 * cos (-π / 2), r3 * sin (-π / 2)),
   (r3 * cos (3 * π / 4), r3 * sin (3 * π / 4)),
   (r3 * cos (π / 2), r3 * sin (π / 2)),
   (r3 * cos (-7 * π / 8), r3 * sin (-7 * π / 8)),
   (r3 * cos (-5 * π / 8), r3 * sin (-5 * π / 8)),
   (r2 * cos (π / 12), r2 * sin (π / 12)),
   (r1 * cos (π / 4), r1 * sin (π / 4)),
   (r2 * cos (-π / 12), r2 * sin (-π / 12)),
   (r1 * cos (-π / 4), r1 * sin (-π / 4)),
   (r2 * cos (11 * π / 12), r2 * sin (11 * π / 12)),
   (r1 * cos (3 * π / 4), r1 * sin (3 * π / 4)),
   (r2 * cos (-11 * π / 12), r2 * sin (-11 * π / 12)),
   (r1 * cos (-3 * π / 4), r1 * sin (-3 * π / 4)),
   (r3 * cos 0, r3 * sin 0),
   (r3 * cos (π / 4), r3 * sin (π / 4)),
   (r3 * cos (-π / 8), r3 * sin (-π / 8)),
   (r3 * cos (-3 * π / 8), r3 * sin (-3 * π / 8)),
   (r3 * cos (7 * π / 8), r3 * sin (7 * π / 8)),
   (r3 * cos (5 * π / 8), r3 * sin (5 * π / 8)),
   (r3 * cos π, r3 * sin π),
   (r3 * cos (-3 * π / 4), r3 * sin (-3 * π / 4))]

open Real in
/-- `_getModulationTable` from `dvb_encoder.py`.  QPSK and 8PSK tables are
fixed angle constants; the APSK tables scale by the looked-up ring radii
(`r2 = 1.0` for 16APSK, `r3 = 1.0` for 32APSK, as in the source). -/
def getModulationTable (ft : FrameType) (c : ConstellationType) (cr : CodeRate) :
    List (ℝ × ℝ) :=
  match c with
  | .MOD_QPSK =>
    [(cos (π / 4), sin (π / 4)),
     (cos (7 * π / 4), sin (7 * π / 4)),
     (cos (3 * π / 4), sin (3 * π / 4)),
     (cos (5 * π / 4), sin (5 * π / 4))]
  | .MOD_8PSK =>
    [(cos (π / 4), sin (π / 4)),
     (cos 0, sin 0),
     (cos (4 * π / 4), sin (4 * π / 4)),
     (cos (5 * π / 4), sin (5 * π / 4)),
     (cos (2 * π / 4), sin (2 * π / 4)),
     (cos (7 * π / 4), sin (7 * π / 4)),
     (cos (3 * π / 4), sin (3 * π / 4)),
     (cos (6 * π / 4), sin (6 * π / 4))]
  | .MOD_16APSK => apsk16Entries (apsk16R1 1 ft cr) 1
  | .MOD_32APSK => apsk32Entries (apsk32R1 1 cr) (apsk32R2 (apsk32R1 1 cr) cr) 1

/-- Squared distance of a constellation point from the origin. -/
def normSq (p : ℝ × ℝ) : ℝ := p.1 ^ 2 + p.2 ^ 2

end

/-! ### In-memory fake register backend (fake_access.py) -/

/-- The module-level `DATA` dictionary: absolute address to last-written
value, `none` when never written. -/
def Mem : Type := ℕ → Option ℕ

/-- `_dictWrite`: store the value unconditionally, no validation. -/
def dictWrite (m : Mem) (addr data : ℕ) : Mem :=
  Function.update m addr (some data)

/-- The valid-address-page check asserted by `_dictRead`:
bits [23:16] of the absolute address must be 0xC0, 0xC1 or 0xC2. -/
def validAddr (addr : ℕ) : Bool :=
  (addr >>> 16) &&& 0xFF == 0xC0 ||
  (addr >>> 16) &&& 0xFF == 0xC1 ||
  (addr >>> 16) &&& 0xFF == 0xC2

/-- `_dictRead`: assert the page check (modelled as `none` on assertion
failure), then return the stored value with default 0. -/
def dictRead (m : Mem) (addr : ℕ) : Option ℕ :=
  if validAddr addr then some ((m addr).getD 0) else none

/-! ### Register access traces

Stateful FIFO / debug-block methods are embedded as the sequences of raw
register accesses they perform, with values read from FIFO data ports
supplied by an oracle. -/

/-- One raw register access performed through a `BaseMemoryRegion`. -/
inductive Op where
  | write : ℕ → ℕ → Op
  | read : ℕ → Op
  deriving DecidableEq, Repr

/-- Apply a trace of accesses to a backend memory; reads leave it unchanged. -/
def applyOps (ops : List Op) (m : Mem) : Mem :=
  ops.foldl (fun m op =>
    match op with
    | .write a v => dictWrite m a v
    | .read _ => m) m

/-- The write accesses of a trace, in order. -/
def writesOf (ops : List Op) : List (ℕ × ℕ) :=
  ops.filterMap fun op =>
    match op with
    | .write a v => some (a, v)
    | .read _ => none

/-! ### AXI streaming FIFO (axi_fifo.py) register offsets -/

def ISR : ℕ := 0x0
def IER : ℕ := 0x4
def TX_FIFO_RESET : ℕ := 0x8
def TX_FIFO_VACANCY : ℕ := 0xC
def TX_FIFO_DATA : ℕ := 0x10
def TX_LENGTH_REGISTER : ℕ := 0x14
def RX_FIFO_RESET : ℕ := 0x18
def RX_FIFO_OCCUPANCY : ℕ := 0x1C
def RX_FIFO_DATA : ℕ := 0x20
def RX_LENGTH_REGISTER : ℕ := 0x24
def AXI4_STREAM_RESET : ℕ := 0x28
def TX_DEST_REGISTER : ℕ := 0x2C
def RX_DEST_REGISTER : ℕ := 0x30
def TX_ID_REGISTER : ℕ := 0x34
def TX_USER_REGISTER : ℕ := 0x38

/-- Python's `int.from_bytes(chunk, "big")`. -/
def fromBytesBE (bs : List ℕ) : ℕ :=
  bs.foldl (fun a b => 256 * a + b) 0

namespace AxiFifo

/-- `AxiFifo.send(data, tid)`: the full register access trace, including
the reads performed for logging.  `data` is the byte payload; word `i` is
the big-endian value of the slice `data[4*i : 4*i+4]`. -/
def send (data : List ℕ) (tid : ℕ) : List Op :=
  [Op.write IER 0x0C000000,
   Op.write TX_DEST_REGISTER 0,
   Op.write TX_ID_REGISTER tid,
   Op.write TX_USER_REGISTER tid]
  ++ (List.range ((data.length + 3) / 4)).map
      (fun i => Op.write TX_FIFO_DATA (fromBytesBE ((data.drop (4 * i)).take 4)))
  ++ [Op.read TX_FIFO_VACANCY,
      Op.write TX_LENGTH_REGISTER data.length,
      Op.read ISR,
      Op.write ISR 0xFFFFFFFF,
      Op.read ISR,
      Op.read TX_FIFO_VACANCY]

/-- The byte-swizzle performed per word in `AxiFifo.receive`: the word is
formatted as 8 hex digits, re-sliced as `word[2:4] + word[0:2] + word[6:8]
+ word[4:6]` and converted back to 4 bytes.  For a 32-bit word with bytes
`[b0 b1 b2 b3]` (most significant first) this yields `[b1, b0, b3, b2]`. -/
def hexSwizzleBytes (w : ℕ) : List ℕ :=
  [w / 2 ^ 16 % 2 ^ 8, w / 2 ^ 24, w % 2 ^ 8, w / 2 ^ 8 % 2 ^ 8]

/-- `AxiFifo.receive(entries=None)`: `entries` is tested for truthiness
(`entries or self.getRxOccupation()`), so both `none` and `some 0` read the
RX occupancy register and use its value as the count.  `rxData i` is the
value returned by the i-th read of the RX data port.  Returns the access
trace and the output byte buffer. -/
def receive (entries : Option ℕ) (occupancy : ℕ) (rxData : ℕ → ℕ) :
    List Op × List ℕ :=
  let n : ℕ :=
    match entries with
    | none => occupancy
    | some e => if e = 0 then occupancy else e
  let occReads : List Op :=
    match entries with
    | none => [Op.read RX_FIFO_OCCUPANCY]
    | some e => if e = 0 then [Op.read RX_FIFO_OCCUPANCY] else []
  (occReads ++ (List.range n).map (fun _ => Op.read RX_FIFO_DATA),
   ((List.range n).map (fun i => hexSwizzleBytes (rxData i))).flatten)

end AxiFifo

/-- The byte swizzle as a word-level function: bytes `[b0 b1 b2 b3]`
become `[b1 b0 b3 b2]`, each 16-bit half independently byte-swapped. -/
def swizzleSpec (w : ℕ) : ℕ :=
  (w / 2 ^ 16 % 2 ^ 8) * 2 ^ 24 + (w / 2 ^ 24) * 2 ^ 16 +
  (w % 2 ^ 8) * 2 ^ 8 + (w / 2 ^ 8 % 2 ^ 8)

/-- Big-endian byte decomposition of a 32-bit word (most significant
byte first), the layout in the output buffer. -/
def wordBytesBE (w : ℕ) : List ℕ :=
  [w / 2 ^ 24, w / 2 ^ 16 % 2 ^ 8, w / 2 ^ 8 % 2 ^ 8, w % 2 ^ 8]

/-! ### AXI debug block (dvb_encoder.AxiDebug) -/

/-- The cached snapshot fields of an `AxiDebug` instance. -/
structure AxiDebugState where
  word_count : ℕ
  max_frame_length : Option ℕ
  min_frame_length : Option ℕ
  deriving DecidableEq, Repr

namespace AxiDebug

/-- `AxiDebug.clear()`: reset the cached snapshot, performing no register
access (second component is the — empty — access trace). -/
def clear (_s : AxiDebugState) : AxiDebugState × List Op :=
  ({ word_count := 0, max_frame_length := none, min_frame_length := none }, [])

end AxiDebug

/-! ### Theorems -/

/-- A point at angle `θ` on the ring of radius `r` has squared norm `r ^ 2`. -/
theorem normSq_ring (r θ : ℝ) :
    normSq (r * Real.cos θ, r * Real.sin θ) = r ^ 2 := by
  simp only [normSq, mul_pow, ← mul_add, Real.cos_sq_add_sin_sq, mul_one]

/-- C1: for every width `W ≥ 2` and value `v`, `toFixedPoint(v, W)` equals
`raw = round(v * ((1 << (W-1)) - 1))` when `raw ≥ 0` and `raw + (1 << W)`
when `raw < 0` (two's-complement wraparound, no saturation); in particular
`toFixedPoint(1.0, 16) = 0x7FFF` and `toFixedPoint(-1.0, 16) = 0x8001`. -/
theorem toFixedPoint_correct (width : ℕ) (_h : 2 ≤ width) (v : ℚ) :
    (toFixedPoint v width =
      if 0 ≤ pyRound (v * ((2 : ℚ) ^ (width - 1) - 1)) then
        pyRound (v * ((2 : ℚ) ^ (width - 1) - 1))
      else pyRound (v * ((2 : ℚ) ^ (width - 1) - 1)) + 2 ^ width) ∧
    toFixedPoint 1 16 = 0x7FFF ∧ toFixedPoint (-1) 16 = 0x8001 := by
  refine ⟨?_, by norm_num [toFixedPoint, pyRound], by norm_num [toFixedPoint, pyRound]⟩
  rw [mul_comm v ((2 : ℚ) ^ (width - 1) - 1)]
  rfl

/-- Witness for C1 at `W = 16`, `v = 1`. -/
theorem toFixedPoint_correct_witness :
    (toFixedPoint 1 16 =
      if 0 ≤ pyRound (1 * ((2 : ℚ) ^ (16 - 1) - 1)) then
        pyRound (1 * ((2 : ℚ) ^ (16 - 1) - 1))
      else pyRound (1 * ((2 : ℚ) ^ (16 - 1) - 1)) + 2 ^ 16) ∧
    toFixedPoint 1 16 = 0x7FFF ∧ toFixedPoint (-1) 16 = 0x8001 :=
  toFixedPoint_correct 16 (by decide) 1

set_option maxRecDepth 100000 in
/-- C3: the TID table is total over all 88 triples, every value lies in
[0x00, 0x57], and no two distinct triples map to the same value. -/
theorem tidMap_bounded_injective :
    (∀ ft c cr, tidMap ft c cr ≤ 0x57) ∧
    ∀ a b : FrameType × ConstellationType × CodeRate,
      tidMap a.1 a.2.1 a.2.2 = tidMap b.1 b.2.1 b.2.2 → a = b := by
  exact ⟨by decide, by decide⟩

/-- Witness for C3 at the triple (short, QPSK, 1/4). -/
theorem tidMap_bounded_injective_witness :
    tidMap .FECFRAME_SHORT .MOD_QPSK .C1_4 ≤ 0x57 ∧
    ((FrameType.FECFRAME_SHORT, ConstellationType.MOD_QPSK, CodeRate.C1_4) :
        FrameType × ConstellationType × CodeRate) =
      (FrameType.FECFRAME_SHORT, ConstellationType.MOD_QPSK, CodeRate.C1_4) :=
  ⟨tidMap_bounded_injective.1 .FECFRAME_SHORT .MOD_QPSK .C1_4,
   tidMap_bounded_injective.2
     (.FECFRAME_SHORT, .MOD_QPSK, .C1_4) (.FECFRAME_SHORT, .MOD_QPSK, .C1_4) rfl⟩

/-- C4: for every frame type and code rate, the modulation table has
length 4 for QPSK, 8 for 8PSK, 16 for 16APSK and 32 for 32APSK. -/
theorem modulation_table_lengths (ft : FrameType) (cr : CodeRate) :
    (getModulationTable ft .MOD_QPSK cr).length = 4 ∧
    (getModulationTable ft .MOD_8PSK cr).length = 8 ∧
    (getModulationTable ft .MOD_16APSK cr).length = 16 ∧
    (getModulationTable ft .MOD_32APSK cr).length = 32 :=
  ⟨rfl, rfl, rfl, rfl⟩

/-- C5: the (normal frame, 16APSK, rate 2/3) table has 16 entries; entries
0 through 11 lie on the ring of radius `r2 = 1.0` (squared norm 1) and
entries 12 through 15 on the ring of radius `r1 = 1.0 / 3.15`. -/
theorem apsk16_normal_2_3_rings :
    (getModulationTable .FECFRAME_NORMAL .MOD_16APSK .C2_3).length = 16 ∧
    (getModulationTable .FECFRAME_NORMAL .MOD_16APSK .C2_3).map normSq =
      [1, 1, 1, 1, 1, 1, 1, 1, 1, 1, 1, 1,
       ((1 : ℝ) / 3.15) ^ 2, (1 / 3.15) ^ 2, (1 / 3.15) ^ 2, (1 / 3.15) ^ 2] := by
  refine ⟨rfl, ?_⟩
  show (apsk16Entries (apsk16R1 1 .FECFRAME_NORMAL .C2_3) 1).map normSq = _
  simp only [apsk16Entries, apsk16R1, List.map_cons, List.map_nil, normSq_ring]
  norm_num

/-- C6: for a (frame type, code rate) pair with no 16APSK ring-radius
entry, the generator still returns a 16-entry table; the inner radius
defaults to 0.0, so entries 12 through 15 are all (0.0, 0.0). -/
theorem apsk16_unmapped_defaults (ft : FrameType) (cr : CodeRate)
    (h : apsk16R1 1 ft cr = 0) :
    (getModulationTable ft .MOD_16APSK cr).length = 16 ∧
    (getModulationTable ft .MOD_16APSK cr).drop 12 =
      [((0 : ℝ), (0 : ℝ)), (0, 0), (0, 0), (0, 0)] := by
  refine ⟨rfl, ?_⟩
  show (apsk16Entries (apsk16R1 1 ft cr) 1).drop 12 = _
  rw [h]
  norm_num [apsk16Entries]

/-- Witness for C6 at (short frame, rate 9/10), which the short-frame
radius dictionary does not contain. -/
theorem apsk16_unmapped_defaults_witness :
    (getModulationTable .FECFRAME_SHORT .MOD_16APSK .C9_10).length = 16 ∧
    (getModulationTable .FECFRAME_SHORT .MOD_16APSK .C9_10).drop 12 =
      [((0 : ℝ), (0 : ℝ)), (0, 0), (0, 0), (0, 0)] :=
  apsk16_unmapped_defaults .FECFRAME_SHORT .C9_10 rfl

/-- The per-word hex swizzle equals the byte permutation
`[b0 b1 b2 b3] -> [b1 b0 b3 b2]` re-encoded big-endian. -/
theorem hexSwizzleBytes_spec (w : ℕ) (h : w < 2 ^ 32) :
    AxiFifo.hexSwizzleBytes w = wordBytesBE (swizzleSpec w) := by
  obtain ⟨b0, b1, b2, b3, hb0, hb1, hb2, hb3, hw⟩ :
      ∃ b0 b1 b2 b3, b0 < 256 ∧ b1 < 256 ∧ b2 < 256 ∧ b3 < 256 ∧
        w = b0 * 2 ^ 24 + b1 * 2 ^ 16 + b2 * 2 ^ 8 + b3 :=
    ⟨w / 2 ^ 24, w / 2 ^ 16 % 2 ^ 8, w / 2 ^ 8 % 2 ^ 8, w % 2 ^ 8,
     by omega, by omega, by omega, by omega, by omega⟩
  subst hw
  have h1 : (b0 * 2 ^ 24 + b1 * 2 ^ 16 + b2 * 2 ^ 8 + b3) / 2 ^ 24 = b0 := by omega
  have h2 : (b0 * 2 ^ 24 + b1 * 2 ^ 16 + b2 * 2 ^ 8 + b3) / 2 ^ 16 % 2 ^ 8 = b1 := by
    omega
  have h3 : (b0 * 2 ^ 24 + b1 * 2 ^ 16 + b2 * 2 ^ 8 + b3) / 2 ^ 8 % 2 ^ 8 = b2 := by
    omega
  have h4 : (b0 * 2 ^ 24 + b1 * 2 ^ 16 + b2 * 2 ^ 8 + b3) % 2 ^ 8 = b3 := by omega
  simp only [AxiFifo.hexSwizzleBytes, wordBytesBE, swizzleSpec, h1, h2, h3, h4,
    List.cons.injEq, and_true]
  clear h h1 h2 h3 h4
  refine ⟨?_, ?_, ?_, ?_⟩ <;> omega

/-- C2: each 32-bit word read from the RX data port during `receive()` is
appended with its two 16-bit halves independently byte-swapped
(`[b0 b1 b2 b3]` becomes `[b1 b0 b3 b2]`); `0xAABBCCDD` maps to
`0xBBAADDCC`. -/
theorem receive_swizzles_words (n occ : ℕ) (rx : ℕ → ℕ)
    (h : ∀ i, rx i < 2 ^ 32) :
    (AxiFifo.receive (some n) occ rx).2 =
      ((List.range (if n = 0 then occ else n)).map
        (fun i => wordBytesBE (swizzleSpec (rx i)))).flatten ∧
    swizzleSpec 0xAABBCCDD = 0xBBAADDCC := by
  refine ⟨?_, by decide⟩
  have hsw : ∀ i, AxiFifo.hexSwizzleBytes (rx i) = wordBytesBE (swizzleSpec (rx i)) :=
    fun i => hexSwizzleBytes_spec (rx i) (h i)
  simp only [AxiFifo.receive, hsw]

/-- Witness for C2 at a single-word receive of `0xAABBCCDD`. -/
theorem receive_swizzles_words_witness :
    (AxiFifo.receive (some 1) 0 (fun _ => 0xAABBCCDD)).2 =
      ((List.range (if 1 = 0 then 0 else 1)).map
        (fun i => wordBytesBE (swizzleSpec ((fun _ => 0xAABBCCDD) i)))).flatten ∧
    swizzleSpec 0xAABBCCDD = 0xBBAADDCC :=
  receive_swizzles_words 1 0 (fun _ => 0xAABBCCDD)
    (fun _ => (by decide : (0xAABBCCDD : ℕ) < 2 ^ 32))

/-- `writesOf` distributes over appended traces. -/
theorem writesOf_append (l1 l2 : List Op) :
    writesOf (l1 ++ l2) = writesOf l1 ++ writesOf l2 :=
  List.filterMap_append l1 l2 _

/-- A trace of data-port writes keeps exactly its writes, in order. -/
theorem writesOf_map_write (a : ℕ) (f : ℕ → ℕ) (l : List ℕ) :
    writesOf (l.map fun i => Op.write a (f i)) = l.map fun i => (a, f i) := by
  induction l with
  | nil => rfl
  | cons x xs ih =>
    simp only [List.map_cons, writesOf, List.filterMap_cons] at ih ⊢
    exact congrArg _ ih

/-- C7: `send(data, tid)` performs, in order, the writes enabling the
TX/RX-complete interrupts, destination = 0, ID = tid, USER = tid, then
`ceil(len(data)/4)` big-endian data words, then the byte length, then the
interrupt-clearing write of all ones; `(len + 3) / 4` is the ceiling of
`len / 4`. -/
theorem send_trace (data : List ℕ) (tid : ℕ) :
    writesOf (AxiFifo.send data tid) =
      [(IER, 0x0C000000), (TX_DEST_REGISTER, 0),
       (TX_ID_REGISTER, tid), (TX_USER_REGISTER, tid)]
      ++ (List.range ((data.length + 3) / 4)).map
          (fun i => (TX_FIFO_DATA, fromBytesBE ((data.drop (4 * i)).take 4)))
      ++ [(TX_LENGTH_REGISTER, data.length), (ISR, 0xFFFFFFFF)] ∧
    data.length ≤ 4 * ((data.length + 3) / 4) ∧
    4 * ((data.length + 3) / 4) < data.length + 4 := by
  refine ⟨?_, by omega, by omega⟩
  rw [AxiFifo.send, writesOf_append, writesOf_append, writesOf_map_write]
  rfl

/-- C8: `clear()` resets the cached snapshot fields to their empty state,
issues no register access, and leaves the backend memory unchanged. -/
theorem clear_resets_without_hardware_access (s : AxiDebugState) :
    AxiDebug.clear s =
      ({ word_count := 0, max_frame_length := none, min_frame_length := none }, []) ∧
    ∀ m : Mem, applyOps (AxiDebug.clear s).2 m = m :=
  ⟨rfl, fun _ => rfl⟩

/-- C9: because the entry count is tested for truthiness, `receive(0)`
behaves identically to `receive(None)`: it reads the RX occupancy register
and then that many words from the RX data port. -/
theorem receive_zero_equals_none (occ : ℕ) (rx : ℕ → ℕ) :
    AxiFifo.receive (some 0) occ rx = AxiFifo.receive none occ rx ∧
    (AxiFifo.receive (some 0) occ rx).1 =
      Op.read RX_FIFO_OCCUPANCY ::
        (List.range occ).map (fun _ => Op.read RX_FIFO_DATA) :=
  ⟨rfl, rfl⟩

/-- C10: the fake backend validates the address page only on reads: a
write to any absolute address stores the value, a read of an invalid-page
address fails the assertion (even after a successful write there), a read
of a valid never-written address returns 0, and a read after writes
returns the last-written value. -/
theorem fake_backend_semantics (m : Mem) (a b v w : ℕ)
    (ha : validAddr a = true) (hb : validAddr b = false) (hnone : m a = none) :
    dictWrite m b v b = some v ∧
    dictRead (dictWrite m b v) b = none ∧
    dictRead m a = some 0 ∧
    dictRead (dictWrite m a v) a = some v ∧
    dictRead (dictWrite (dictWrite m a v) a w) a = some w := by
  refine ⟨?_, ?_, ?_, ?_, ?_⟩
  · simp [dictWrite]
  · simp [dictRead, hb]
  · simp [dictRead, ha, hnone]
  · simp [dictRead, dictWrite, ha]
  · simp [dictRead, dictWrite, ha]

/-- Witness for C10 with the valid address 0xC00000, the invalid address
0x000000, and an initially empty store. -/
theorem fake_backend_semantics_witness :
    dictWrite (fun _ => none) 0x000000 1 0x000000 = some 1 ∧
    dictRead (dictWrite (fun _ => none) 0x000000 1) 0x000000 = none ∧
    dictRead (fun _ => none) 0xC00000 = some 0 ∧
    dictRead (dictWrite (fun _ => none) 0xC00000 1) 0xC00000 = some 1 ∧
    dictRead (dictWrite (dictWrite (fun _ => none) 0xC00000 1) 0xC00000 2) 0xC00000
      = some 2 :=
  fake_backend_semantics (fun _ => none) 0xC00000 0x000000 1 2
    (by decide) (by decide) rfl

end Dvb
